import Mathlib

/-!
Verification of `src/data_provider/longport_fetcher.py` (class `LongPortFetcher`).

Shallow embedding conventions:
* A pandas `DataFrame` is modelled column-oriented: an explicit row count
  (the index length) plus an association list of named columns.  Cell values
  are a sum of strings, exact rationals (standing for Python floats) and the
  float `NaN` produced by `pct_change` on the first row.
* Python exceptions become an explicit `Except PyExc` result; the distinct
  exception classes seen by this module are the constructors of `PyExc`.
* `self.ctx` (the LongPort `QuoteContext`, possibly `None`) is passed
  explicitly as an `Option QuoteContext`; the single SDK operation used,
  `history_candlesticks_by_date`, is the field of that structure.
* `logger.warning` / `logger.error` calls are made observable as a list of
  `LogEntry` values returned beside the result.
-/

/-- A pandas cell value: a string (the `date` column), a float modelled as an
exact rational, or the float `NaN` that `Series.pct_change` puts in row 0. -/
inductive Value where
  | str (s : String)
  | num (q : ℚ)
  | nan
deriving DecidableEq, Repr

/-- A pandas `DataFrame`: the length of the index plus named columns in
order.  `pd.DataFrame()` is `⟨0, []⟩`. -/
structure DataFrame where
  nrows : Nat
  cols : List (String × List Value)
deriving DecidableEq, Repr

/-- `df.columns` as a list of names. -/
def DataFrame.columns (d : DataFrame) : List String := d.cols.map Prod.fst

/-- `df.empty`: true iff either axis has length 0. -/
def DataFrame.empty (d : DataFrame) : Bool := d.nrows == 0 || d.cols.isEmpty

/-- `df[c]` as a read: the first column named `c`, if any. -/
def DataFrame.getCol (d : DataFrame) (c : String) : Option (List Value) :=
  (d.cols.find? (fun p => p.1 == c)).map Prod.snd

/-- Column assignment on the underlying association list: replace the column
if the name exists (pandas keeps its position), append it at the end
otherwise. -/
def setPairs (cols : List (String × List Value)) (c : String) (v : List Value) :
    List (String × List Value) :=
  match cols with
  | [] => [(c, v)]
  | p :: rest => if p.1 = c then (c, v) :: rest else p :: setPairs rest c v

/-- `df[c] = series`: in-place column assignment, modelled functionally as the
next state of the frame.  The index length does not change. -/
def DataFrame.setCol (d : DataFrame) (c : String) (v : List Value) : DataFrame :=
  ⟨d.nrows, setPairs d.cols c v⟩

/-- Modelled from the spec: `STANDARD_COLUMNS` lives in `src/data_provider/base.py`,
which is not part of the sources; the spec's data model (§3) fixes the standard
row as the raw candle record — date, open, high, low, close, volume,
turnover(amount) — plus the derived percentage-change field, in a fixed order. -/
def STANDARD_COLUMNS : List String :=
  ["date", "open", "high", "low", "close", "volume", "amount", "pct_chg"]

/-- One step of `Series.pct_change`: current / previous - 1 on numeric cells. -/
def pctStep (prev cur : Value) : Value :=
  match prev, cur with
  | Value.num a, Value.num b => Value.num (b / a - 1)
  | _, _ => Value.nan

/-- `Series.pct_change()`: `NaN` in row 0, `x[t]/x[t-1] - 1` in row `t ≥ 1`. -/
def pct_change (xs : List Value) : List Value :=
  match xs with
  | [] => []
  | x :: rest => Value.nan :: List.zipWith pctStep (x :: rest) rest

/-- `series * k`: scalar multiplication, `NaN` propagates. -/
def seriesMul (xs : List Value) (k : ℚ) : List Value :=
  xs.map fun v => match v with
    | Value.num q => Value.num (q * k)
    | _ => Value.nan

/-- `series.fillna(k)`: replace `NaN` cells by `k`. -/
def fillna (xs : List Value) (k : ℚ) : List Value :=
  xs.map fun v => match v with
    | Value.nan => Value.num k
    | w => w

/-- The Python exceptions this module can see: `ValueError` from
`datetime.strptime`, `KeyError` from a pandas column lookup, an arbitrary
provider/SDK exception from the network call, and the module's own
`DataFetchError` (from `base.py`, absent from the sources; the spec documents
it as the single fetch-error kind carrying a human-readable message). -/
inductive PyExc where
  | valueError (msg : String)
  | keyError (msg : String)
  | providerError (msg : String)
  | dataFetchError (msg : String)
deriving DecidableEq, Repr

/-- `str(e)`: the message an exception formats as in an f-string. -/
def PyExc.message : PyExc → String
  | .valueError m => m
  | .keyError m => m
  | .providerError m => m
  | .dataFetchError m => m

/-- Lines 149-151: when `pct_chg` is absent, assign
`df['close'].pct_change() * 100` and then `fillna(0)` over it, both as
in-place column assignments.  Reading `df['close']` when that column is
absent raises `KeyError` before any assignment happens. -/
def addPctChg (d : DataFrame) : Except PyExc DataFrame :=
  if "pct_chg" ∈ d.columns then .ok d
  else
    match d.getCol "close" with
    | none => .error (PyExc.keyError "close")
    | some closeVals =>
      let d1 := d.setCol "pct_chg" (seriesMul (pct_change closeVals) 100)
      let d2 := d1.setCol "pct_chg" (fillna ((d1.getCol "pct_chg").getD []) 0)
      .ok d2

/-- Line 156 for one column: `df[col] = 0.0` if `col` is absent (pandas
broadcasts the scalar over the index). -/
def ensureCol (d : DataFrame) (c : String) : DataFrame :=
  if c ∈ d.columns then d
  else d.setCol c (List.replicate d.nrows (Value.num 0))

/-- Lines 154-156: the `for col in STANDARD_COLUMNS` loop adding missing
columns, generalized over the column list for the proofs. -/
def ensureColsList (d : DataFrame) (names : List String) : DataFrame :=
  names.foldl ensureCol d

/-- Lines 154-156 as written, over `STANDARD_COLUMNS`. -/
def ensureCols (d : DataFrame) : DataFrame := ensureColsList d STANDARD_COLUMNS

/-- Line 158: `df[names]` column selection, in the given order; pandas raises
`KeyError` when a requested column is absent. -/
def selectE (d : DataFrame) (names : List String) : Except PyExc DataFrame :=
  if ∀ n ∈ names, n ∈ d.columns then
    .ok ⟨d.nrows, names.map (fun n => (n, (d.getCol n).getD []))⟩
  else .error (PyExc.keyError "columns not in index")

/-- Lines 144-158: `_normalize_data`.  `stock_code` is a parameter of the
Python method and is unused by its body. -/
def _normalize_data (df : DataFrame) (stock_code : String) : Except PyExc DataFrame :=
  if df.empty then .ok ⟨0, STANDARD_COLUMNS.map (fun c => (c, []))⟩
  else
    match addPctChg df with
    | .error e => .error e
    | .ok d1 => selectE (ensureCols d1) STANDARD_COLUMNS

/-- The state of the caller's `df` object when `_normalize_data` exits
(normally or by exception): Python column assignment mutates the argument in
place, so the argument ends as the frame after lines 149-156 ran on it — or
unchanged on the empty path and when the `KeyError` from `df['close']` fires
before the first assignment. -/
def _normalize_data_after (df : DataFrame) : DataFrame :=
  if df.empty then df
  else
    match addPctChg df with
    | .error _ => df
    | .ok d1 => ensureCols d1

/-!
Python string operations, implemented over the character list `String.data`
(the built-in byte-position-based `String` functions do not reduce in the
kernel, so witnesses could not evaluate them).  Each models the ASCII
fragment of the CPython behavior, which covers every string this module
handles.
-/

/-- Python `str.strip()`: drop whitespace from both ends. -/
def pyStrip (s : String) : String :=
  ⟨((s.data.dropWhile Char.isWhitespace).reverse.dropWhile Char.isWhitespace).reverse⟩

/-- Python `c in s` for a single-character needle. -/
def pyContainsChar (s : String) (c : Char) : Bool := s.data.contains c

/-- Python `s.startswith(p)`. -/
def pyStartsWith (s p : String) : Bool := p.data.isPrefixOf s.data

/-- Python `len(s)` (characters). -/
def pyLen (s : String) : Nat := s.data.length

/-- Python `s.upper()` (ASCII). -/
def pyUpper (s : String) : String := ⟨s.data.map Char.toUpper⟩

/-- Python `s.split(sep)` for a one-character separator, on the char list:
`split('.')` of `"a.b."` is `["a", "b", ""]`, of `""` is `[""]`. -/
def splitChar (l : List Char) (c : Char) : List (List Char) :=
  match l with
  | [] => [[]]
  | x :: xs =>
    match splitChar xs c with
    | [] => if x = c then [[], []] else [[x]]
    | h :: t => if x = c then [] :: h :: t else (x :: h) :: t

/-- Python `s.split(sep)` for a one-character separator. -/
def pySplit (s : String) (c : Char) : List String :=
  (splitChar s.data c).map String.mk

/-- Python `str.isdigit()` (ASCII fragment): nonempty and all digits. -/
def pyIsdigit (s : String) : Bool := !s.data.isEmpty && s.data.all Char.isDigit

/-- Python `str.isalpha()` (ASCII fragment): nonempty and all letters. -/
def pyIsalpha (s : String) : Bool := !s.data.isEmpty && s.data.all Char.isAlpha

/-- Lines 69-95: `_convert_to_longport_symbol`. -/
def _convert_to_longport_symbol (stock_code0 : String) : String :=
  let stock_code := pyStrip stock_code0
  if pyContainsChar stock_code '.' then
    let parts := pySplit stock_code '.'
    let suffix := pyUpper (parts.getLastD "")
    if suffix ∈ ["SH", "SZ", "HK", "US"] then pyUpper stock_code
    else stock_code
  else if pyStartsWith stock_code "6" then stock_code ++ ".SH"
  else if pyStartsWith stock_code "00" || pyStartsWith stock_code "30" then stock_code ++ ".SZ"
  else if pyStartsWith stock_code "8" || pyStartsWith stock_code "4" then stock_code ++ ".BJ"
  else if pyStartsWith stock_code "0" && pyLen stock_code == 5 then stock_code ++ ".HK"
  else if pyIsdigit stock_code && pyLen stock_code ≤ 5 then stock_code ++ ".HK"
  else if pyIsalpha stock_code then stock_code ++ ".US"
  else if pyStartsWith stock_code "6" then stock_code ++ ".SH"
  else stock_code ++ ".SZ"

/-- A calendar date, as produced by `datetime.strptime(s, "%Y-%m-%d").date()`. -/
structure Date where
  year : Nat
  month : Nat
  day : Nat
deriving DecidableEq, Repr

/-- Gregorian leap year, as `datetime.date` validates it. -/
def isLeap (y : Nat) : Bool := (y % 4 == 0 && y % 100 != 0) || y % 400 == 0

/-- Days in a month, as `datetime.date` validates day-of-month. -/
def daysInMonth (y m : Nat) : Nat :=
  if m = 2 then (if isLeap y then 29 else 28)
  else if m ∈ [4, 6, 9, 11] then 30
  else 31

/-- The base-10 value of a digit string. -/
def digitsVal (l : List Char) : Nat :=
  l.foldl (fun a c => 10 * a + (c.toNat - '0'.toNat)) 0

/-- Nonempty, all ASCII digits, read in base 10. -/
def digitsToNat? (s : String) : Option Nat :=
  if pyIsdigit s then some (digitsVal s.data) else none

/-- Line 105/106: `datetime.strptime(s, "%Y-%m-%d").date()`.  `%Y` matches
exactly four digits, `%m` and `%d` one or two digits; a string that does not
match the pattern raises `ValueError` with strptime's message, and a matching
string whose fields do not form a calendar date raises the constructor's
`ValueError`. -/
def strptimeYmd (s : String) : Except PyExc Date :=
  let noMatch : Except PyExc Date :=
    .error (PyExc.valueError
      ("time data '" ++ s ++ "' does not match format '%Y-%m-%d'"))
  match pySplit s '-' with
  | [ys, ms, ds] =>
    match digitsToNat? ys, digitsToNat? ms, digitsToNat? ds with
    | some y, some m, some d =>
      if pyLen ys = 4 ∧ pyLen ms ≤ 2 ∧ pyLen ds ≤ 2 ∧ 1 ≤ m ∧ m ≤ 12 ∧ 1 ≤ d ∧ d ≤ 31 then
        if y = 0 then .error (PyExc.valueError "year 0 is out of range")
        else if d ≤ daysInMonth y m then .ok ⟨y, m, d⟩
        else .error (PyExc.valueError "day is out of range for month")
      else noMatch
    | _, _, _ => noMatch
  | _ => noMatch

/-- Zero-pad to two digits, as `strftime` and `str(date)` do. -/
def pad2 (n : Nat) : String := if n < 10 then "0" ++ toString n else toString n

/-- Zero-pad a year to four digits. -/
def pad4 (n : Nat) : String :=
  if n < 10 then "000" ++ toString n
  else if n < 100 then "00" ++ toString n
  else if n < 1000 then "0" ++ toString n
  else toString n

/-- `d.strftime("%Y-%m-%d")`, which is also `str(d)` for a `date`. -/
def dateToStr (d : Date) : String :=
  pad4 d.year ++ "-" ++ pad2 d.month ++ "-" ++ pad2 d.day

/-- `Period.Day`, the only period requested. -/
inductive Period where
  | Day
deriving DecidableEq, Repr

/-- `AdjustType.ForwardAdjust`, the only adjustment requested. -/
inductive AdjustType where
  | ForwardAdjust
deriving DecidableEq, Repr

/-- One candlestick of the SDK response (line 125: attributes close, high,
low, open, time, volume, turnover; `time` is a datetime, of which only the
calendar date is read; the numeric fields are coerced with `float`, modelled
as exact rationals). -/
structure Candle where
  time : Date
  openPx : ℚ
  high : ℚ
  low : ℚ
  close : ℚ
  volume : ℚ
  turnover : ℚ
deriving DecidableEq, Repr

/-- The one SDK capability consumed (line 110): fetch daily candlesticks for
a symbol between two dates.  The behavior — a candle list or a raised
provider exception — is the environment's choice, so it is a field. -/
structure QuoteContext where
  history_candlesticks_by_date :
    String → Period → AdjustType → Date → Date → Except PyExc (List Candle)

/-- Lines 123-137: build the row dicts and the `DataFrame` from them; pandas
orders the columns by first insertion order of the dict keys. -/
def candleFrame (cs : List Candle) : DataFrame :=
  ⟨cs.length,
    [("date", cs.map (fun c => Value.str (dateToStr c.time))),
     ("open", cs.map (fun c => Value.num c.openPx)),
     ("high", cs.map (fun c => Value.num c.high)),
     ("low", cs.map (fun c => Value.num c.low)),
     ("close", cs.map (fun c => Value.num c.close)),
     ("volume", cs.map (fun c => Value.num c.volume)),
     ("amount", cs.map (fun c => Value.num c.turnover))]⟩

/-- An observable `logger.warning` / `logger.error` call. -/
inductive LogEntry where
  | warning (msg : String)
  | error (msg : String)
deriving DecidableEq, Repr

/-- Lines 103-138: the body of the `try:` block — parse both dates, call the
provider, and either produce the warning-plus-empty-frame for an empty candle
list or the mapped frame.  Any `.error` here is what the `except` clause
catches as `e`. -/
def fetchBody (qc : QuoteContext) (symbol start_date end_date : String) :
    Except PyExc (List LogEntry × DataFrame) :=
  match strptimeYmd start_date with
  | .error e => .error e
  | .ok startD =>
    match strptimeYmd end_date with
    | .error e => .error e
    | .ok endD =>
      match qc.history_candlesticks_by_date symbol
              Period.Day AdjustType.ForwardAdjust startD endD with
      | .error e => .error e
      | .ok candlesticks =>
        if candlesticks.isEmpty then
          .ok ([LogEntry.warning
                  ("No data found for " ++ symbol ++ " from " ++ dateToStr startD
                    ++ " to " ++ dateToStr endD)],
               (⟨0, []⟩ : DataFrame))
        else
          .ok ([], candleFrame candlesticks)

/-- The pair a call to `_fetch_raw_data` produces: the log lines it emitted
and either the returned frame or the raised exception. -/
structure FetchResult where
  logs : List LogEntry
  result : Except PyExc DataFrame
deriving Repr

/-- Lines 97-142: `_fetch_raw_data`, with `self.ctx` passed explicitly.
An unset context raises `DataFetchError` at once (line 98-99); otherwise the
symbol is translated (line 101) and the `try:` body runs, its exception — if
any — logged and re-raised as `DataFetchError` wrapping the original message
(lines 140-142). -/
def _fetch_raw_data (ctx : Option QuoteContext)
    (stock_code start_date end_date : String) : FetchResult :=
  match ctx with
  | none => ⟨[], .error (PyExc.dataFetchError
      "LongPort context not initialized or credentials missing")⟩
  | some qc =>
    let symbol := _convert_to_longport_symbol stock_code
    match fetchBody qc symbol start_date end_date with
    | .ok (logs, df) => ⟨logs, .ok df⟩
    | .error e =>
      ⟨[LogEntry.error
          ("Error fetching data from LongPort for " ++ symbol ++ ": " ++ e.message)],
       .error (PyExc.dataFetchError ("LongPort fetch error: " ++ e.message))⟩

/-- C5: for every trimmed local code with no market separator,
`_convert_to_longport_symbol` classifies it by the first-match-wins rules:
starts with "6" → append ".SH"; starts with "00" or "30" → ".SZ"; starts
with "8" or "4" → ".BJ"; starts with "0" and length exactly 5 → ".HK"; all
digits and length ≤ 5 → ".HK"; all alphabetic → ".US". -/
theorem C5_no_separator_rules (s : String) (ht : pyStrip s = s)
    (hdot : pyContainsChar s '.' = false) :
    (pyStartsWith s "6" = true → _convert_to_longport_symbol s = s ++ ".SH")
    ∧ (pyStartsWith s "6" = false →
        (pyStartsWith s "00" || pyStartsWith s "30") = true →
        _convert_to_longport_symbol s = s ++ ".SZ")
    ∧ (pyStartsWith s "6" = false →
        (pyStartsWith s "00" || pyStartsWith s "30") = false →
        (pyStartsWith s "8" || pyStartsWith s "4") = true →
        _convert_to_longport_symbol s = s ++ ".BJ")
    ∧ (pyStartsWith s "6" = false →
        (pyStartsWith s "00" || pyStartsWith s "30") = false →
        (pyStartsWith s "8" || pyStartsWith s "4") = false →
        (pyStartsWith s "0" && pyLen s == 5) = true →
        _convert_to_longport_symbol s = s ++ ".HK")
    ∧ (pyStartsWith s "6" = false →
        (pyStartsWith s "00" || pyStartsWith s "30") = false →
        (pyStartsWith s "8" || pyStartsWith s "4") = false →
        (pyStartsWith s "0" && pyLen s == 5) = false →
        (pyIsdigit s && pyLen s ≤ 5) = true →
        _convert_to_longport_symbol s = s ++ ".HK")
    ∧ (pyStartsWith s "6" = false →
        (pyStartsWith s "00" || pyStartsWith s "30") = false →
        (pyStartsWith s "8" || pyStartsWith s "4") = false →
        (pyStartsWith s "0" && pyLen s == 5) = false →
        (pyIsdigit s && pyLen s ≤ 5) = false →
        pyIsalpha s = true →
        _convert_to_longport_symbol s = s ++ ".US") := by
  refine ⟨fun h1 => ?_, fun h1 h2 => ?_, fun h1 h2 h3 => ?_,
          fun h1 h2 h3 h4 => ?_, fun h1 h2 h3 h4 h5 => ?_,
          fun h1 h2 h3 h4 h5 h6 => ?_⟩
  · simp only [_convert_to_longport_symbol, ht, hdot, h1]; simp
  · simp only [_convert_to_longport_symbol, ht, hdot, h1, h2]; simp
  · simp only [_convert_to_longport_symbol, ht, hdot, h1, h2, h3]; simp
  · simp only [_convert_to_longport_symbol, ht, hdot, h1, h2, h3, h4]; simp
  · simp only [_convert_to_longport_symbol, ht, hdot, h1, h2, h3, h4, h5]; simp
  · simp only [_convert_to_longport_symbol, ht, hdot, h1, h2, h3, h4, h5, h6]; simp

/-- Witness for C5 at the concrete code "600519". -/
theorem C5_witness :
    _convert_to_longport_symbol "600519" = "600519" ++ ".SH" :=
  (C5_no_separator_rules "600519" (by decide) (by decide)).1 (by decide)

/-- C6: for every trimmed code containing the market separator '.', the
translator uppercases the part after the last '.'; a known suffix (SH, SZ,
HK, US) yields the whole string uppercased, any other suffix passes the
input through verbatim. -/
theorem C6_separator_passthrough (s : String) (ht : pyStrip s = s)
    (hdot : pyContainsChar s '.' = true) :
    (pyUpper ((pySplit s '.').getLastD "") ∈ ["SH", "SZ", "HK", "US"] →
      _convert_to_longport_symbol s = pyUpper s)
    ∧ (pyUpper ((pySplit s '.').getLastD "") ∉ ["SH", "SZ", "HK", "US"] →
      _convert_to_longport_symbol s = s) := by
  constructor
  · intro h
    simp only [_convert_to_longport_symbol, ht, hdot]
    simp only [List.getLastD_eq_getLast?] at h
    simp [h]
  · intro h
    simp only [_convert_to_longport_symbol, ht, hdot]
    simp only [List.getLastD_eq_getLast?] at h
    simp [h]

/-- Witness for C6 at "700.HK" (known suffix) and "ABC.XX" (unknown suffix). -/
theorem C6_witness :
    _convert_to_longport_symbol "700.HK" = pyUpper "700.HK"
    ∧ _convert_to_longport_symbol "ABC.XX" = "ABC.XX" :=
  ⟨(C6_separator_passthrough "700.HK" (by decide) (by decide)).1 (by decide),
   (C6_separator_passthrough "ABC.XX" (by decide) (by decide)).2 (by decide)⟩

/-- C7: the ".SH" arm of the final fallback (line 95) is unreachable —
whenever execution reaches the fallback (no separator and no earlier rule
matched), rule 1's failure means the code does not start with "6", so the
fallback returns `code ++ ".SZ"`. -/
theorem C7_fallback_sh_unreachable (s : String) (ht : pyStrip s = s)
    (hdot : pyContainsChar s '.' = false)
    (h1 : pyStartsWith s "6" = false)
    (h2 : (pyStartsWith s "00" || pyStartsWith s "30") = false)
    (h3 : (pyStartsWith s "8" || pyStartsWith s "4") = false)
    (h4 : (pyStartsWith s "0" && pyLen s == 5) = false)
    (h5 : (pyIsdigit s && pyLen s ≤ 5) = false)
    (h6 : pyIsalpha s = false) :
    _convert_to_longport_symbol s = s ++ ".SZ" := by
  simp only [_convert_to_longport_symbol, ht, hdot, h1, h2, h3, h4, h5, h6]
  simp

/-- Witness for C7 at "12a", an input on which execution reaches the
fallback. -/
theorem C7_witness : _convert_to_longport_symbol "12a" = "12a" ++ ".SZ" :=
  C7_fallback_sh_unreachable "12a" (by decide) (by decide) (by decide)
    (by decide) (by decide) (by decide) (by decide) (by decide)

/-- C1: with the client handle unset (`ctx = None`), `_fetch_raw_data`
raises `DataFetchError` with the "not initialized" message at once, for
every stock code and every pair of date strings (malformed or not): no date
is parsed, no symbol-translation effect matters, nothing is logged, no
network call is attempted, and no provider-specific exception type can
appear. -/
theorem C1_unset_context (stock_code start_date end_date : String) :
    _fetch_raw_data none stock_code start_date end_date =
      ⟨[], .error (PyExc.dataFetchError
        "LongPort context not initialized or credentials missing")⟩ := rfl

/-- C3: every exception the caller of `_fetch_raw_data` sees from the fetch
pipeline (date parsing, the network call, row mapping) is the single
`DataFetchError` kind, whose message embeds the original cause's message;
no other exception type propagates. -/
theorem C3_single_error_kind (qc : QuoteContext)
    (stock_code start_date end_date : String) (exc : PyExc)
    (h : (_fetch_raw_data (some qc) stock_code start_date end_date).result = .error exc) :
    ∃ cause : PyExc,
      fetchBody qc (_convert_to_longport_symbol stock_code) start_date end_date = .error cause
      ∧ exc = PyExc.dataFetchError ("LongPort fetch error: " ++ cause.message) := by
  cases hb : fetchBody qc (_convert_to_longport_symbol stock_code) start_date end_date with
  | ok p =>
    simp only [_fetch_raw_data, hb] at h
    cases h
  | error e =>
    simp only [_fetch_raw_data, hb] at h
    exact ⟨e, rfl, (Except.error.inj h).symm⟩

/-- Witness for C3: a malformed start date surfaces as `DataFetchError`
wrapping the `ValueError` message of `strptime`. -/
theorem C3_witness :
    ∃ cause : PyExc,
      fetchBody ⟨fun _ _ _ _ _ => .ok []⟩
          (_convert_to_longport_symbol "600519") "bad" "2024-01-31" = .error cause
      ∧ PyExc.dataFetchError
          "LongPort fetch error: time data 'bad' does not match format '%Y-%m-%d'"
        = PyExc.dataFetchError ("LongPort fetch error: " ++ cause.message) :=
  C3_single_error_kind ⟨fun _ _ _ _ _ => .ok []⟩ "600519" "bad" "2024-01-31"
    (PyExc.dataFetchError
      "LongPort fetch error: time data 'bad' does not match format '%Y-%m-%d'") rfl

/-- C8: with the client handle set and the provider returning no candles for
the (well-formed) requested range, `_fetch_raw_data` does not raise: it logs
one warning and returns the zero-row empty frame `pd.DataFrame()`. -/
theorem C8_empty_result_no_raise (qc : QuoteContext)
    (stock_code start_date end_date : String) (startD endD : Date)
    (hs : strptimeYmd start_date = .ok startD)
    (he : strptimeYmd end_date = .ok endD)
    (hc : qc.history_candlesticks_by_date (_convert_to_longport_symbol stock_code)
            Period.Day AdjustType.ForwardAdjust startD endD = .ok []) :
    _fetch_raw_data (some qc) stock_code start_date end_date =
      ⟨[LogEntry.warning
          ("No data found for " ++ _convert_to_longport_symbol stock_code
            ++ " from " ++ dateToStr startD ++ " to " ++ dateToStr endD)],
        .ok ⟨0, []⟩⟩
    ∧ (⟨0, []⟩ : DataFrame).empty = true := by
  refine ⟨?_, rfl⟩
  simp only [_fetch_raw_data, fetchBody, hs, he, hc]
  rfl

/-- Witness for C8: an always-empty provider over a January 2024 range. -/
theorem C8_witness :
    _fetch_raw_data (some ⟨fun _ _ _ _ _ => .ok []⟩) "600519" "2024-01-01" "2024-01-31" =
      ⟨[LogEntry.warning "No data found for 600519.SH from 2024-01-01 to 2024-01-31"],
        .ok ⟨0, []⟩⟩
    ∧ (⟨0, []⟩ : DataFrame).empty = true :=
  C8_empty_result_no_raise ⟨fun _ _ _ _ _ => .ok []⟩ "600519" "2024-01-01" "2024-01-31"
    ⟨2024, 1, 1⟩ ⟨2024, 1, 31⟩ rfl rfl rfl

theorem find_setPairs_self (cols : List (String × List Value)) (c : String) (v : List Value) :
    (setPairs cols c v).find? (fun p => p.1 == c) = some (c, v) := by
  induction cols with
  | nil => simp [setPairs]
  | cons p rest ih =>
    by_cases h : p.1 = c
    · simp [setPairs, h]
    · simp [setPairs, h, ih]

theorem find_setPairs_other (cols : List (String × List Value)) (c : String)
    (v : List Value) (x : String) (hx : x ≠ c) :
    (setPairs cols c v).find? (fun p => p.1 == x) = cols.find? (fun p => p.1 == x) := by
  induction cols with
  | nil => simp [setPairs, Ne.symm hx]
  | cons p rest ih =>
    by_cases h : p.1 = c
    · have hpx : ¬ p.1 = x := by rw [h]; exact Ne.symm hx
      simp [setPairs, h, Ne.symm hx, hpx]
    · by_cases h2 : p.1 = x
      · simp [setPairs, h, h2, hx]
      · simp [setPairs, h, h2, ih]

theorem map_fst_setPairs_of_mem (cols : List (String × List Value)) (c : String)
    (v : List Value) (h : c ∈ cols.map Prod.fst) :
    (setPairs cols c v).map Prod.fst = cols.map Prod.fst := by
  induction cols with
  | nil => simp at h
  | cons p rest ih =>
    by_cases hp : p.1 = c
    · simp [setPairs, hp]
    · have hc : c ∈ rest.map Prod.fst := by
        simp only [List.map_cons, List.mem_cons] at h
        rcases h with h1 | h1
        · exact absurd h1.symm hp
        · exact h1
      simp [setPairs, hp, ih hc]

theorem map_fst_setPairs_of_not_mem (cols : List (String × List Value)) (c : String)
    (v : List Value) (h : c ∉ cols.map Prod.fst) :
    (setPairs cols c v).map Prod.fst = cols.map Prod.fst ++ [c] := by
  induction cols with
  | nil => simp [setPairs]
  | cons p rest ih =>
    simp only [List.map_cons, List.mem_cons] at h
    push_neg at h
    have hp : ¬ p.1 = c := fun hh => h.1 hh.symm
    simp [setPairs, hp, ih h.2]

theorem getCol_setCol_self (d : DataFrame) (c : String) (v : List Value) :
    (d.setCol c v).getCol c = some v := by
  simp [DataFrame.setCol, DataFrame.getCol, find_setPairs_self]

theorem getCol_setCol_other (d : DataFrame) (c : String) (v : List Value)
    (x : String) (hx : x ≠ c) : (d.setCol c v).getCol x = d.getCol x := by
  simp [DataFrame.setCol, DataFrame.getCol, find_setPairs_other d.cols c v x hx]

theorem nrows_setCol (d : DataFrame) (c : String) (v : List Value) :
    (d.setCol c v).nrows = d.nrows := rfl

theorem columns_setCol_of_mem (d : DataFrame) (c : String) (v : List Value)
    (h : c ∈ d.columns) : (d.setCol c v).columns = d.columns :=
  map_fst_setPairs_of_mem d.cols c v h

theorem columns_setCol_of_not_mem (d : DataFrame) (c : String) (v : List Value)
    (h : c ∉ d.columns) : (d.setCol c v).columns = d.columns ++ [c] :=
  map_fst_setPairs_of_not_mem d.cols c v h

theorem nrows_ensureCol (d : DataFrame) (c : String) : (ensureCol d c).nrows = d.nrows := by
  unfold ensureCol; split <;> rfl

theorem mem_columns_ensureCol_of_mem (d : DataFrame) (c x : String)
    (h : x ∈ d.columns) : x ∈ (ensureCol d c).columns := by
  unfold ensureCol
  by_cases hc : c ∈ d.columns
  · simp [hc, h]
  · simp [hc, columns_setCol_of_not_mem d c _ hc, h]

theorem mem_columns_ensureCol_self (d : DataFrame) (c : String) :
    c ∈ (ensureCol d c).columns := by
  unfold ensureCol
  by_cases hc : c ∈ d.columns
  · simp [hc]
  · simp [hc, columns_setCol_of_not_mem d c _ hc]

theorem not_mem_columns_ensureCol (d : DataFrame) (c x : String)
    (hx : x ∉ d.columns) (hxc : x ≠ c) : x ∉ (ensureCol d c).columns := by
  unfold ensureCol
  by_cases hc : c ∈ d.columns
  · simp [hc, hx]
  · simp [hc, columns_setCol_of_not_mem d c _ hc, hx, hxc]

theorem getCol_ensureCol_of_mem (d : DataFrame) (c x : String)
    (h : x ∈ d.columns) : (ensureCol d c).getCol x = d.getCol x := by
  unfold ensureCol
  by_cases hc : c ∈ d.columns
  · simp [hc]
  · have hxc : x ≠ c := fun hh => hc (hh ▸ h)
    simp [hc, getCol_setCol_other d c _ x hxc]

theorem getCol_ensureCol_self_of_not_mem (d : DataFrame) (c : String)
    (h : c ∉ d.columns) :
    (ensureCol d c).getCol c = some (List.replicate d.nrows (Value.num 0)) := by
  unfold ensureCol
  simp [h, getCol_setCol_self]

theorem nrows_ensureColsList (d : DataFrame) (names : List String) :
    (ensureColsList d names).nrows = d.nrows := by
  induction names generalizing d with
  | nil => rfl
  | cons n rest ih => simp [ensureColsList, List.foldl_cons] at ih ⊢; rw [ih, nrows_ensureCol]

theorem mem_columns_ensureColsList_of_mem (d : DataFrame) (names : List String)
    (x : String) (h : x ∈ d.columns) : x ∈ (ensureColsList d names).columns := by
  induction names generalizing d with
  | nil => exact h
  | cons n rest ih =>
    simp only [ensureColsList, List.foldl_cons] at ih ⊢
    exact ih (ensureCol d n) (mem_columns_ensureCol_of_mem d n x h)

theorem mem_columns_ensureColsList_of_mem_names (d : DataFrame) (names : List String)
    (x : String) (h : x ∈ names) : x ∈ (ensureColsList d names).columns := by
  induction names generalizing d with
  | nil => simp at h
  | cons n rest ih =>
    simp only [ensureColsList, List.foldl_cons]
    rcases List.mem_cons.mp h with h1 | h1
    · subst h1
      exact mem_columns_ensureColsList_of_mem _ rest x (mem_columns_ensureCol_self d x)
    · exact ih (ensureCol d n) h1

theorem getCol_ensureColsList_of_mem (d : DataFrame) (names : List String)
    (x : String) (h : x ∈ d.columns) :
    (ensureColsList d names).getCol x = d.getCol x := by
  induction names generalizing d with
  | nil => rfl
  | cons n rest ih =>
    have e : ensureColsList d (n :: rest) = ensureColsList (ensureCol d n) rest := rfl
    rw [e, ih (ensureCol d n) (mem_columns_ensureCol_of_mem d n x h)]
    exact getCol_ensureCol_of_mem d n x h

theorem getCol_ensureColsList_filled (d : DataFrame) (names : List String)
    (x : String) (hn : x ∈ names) (hd : x ∉ d.columns) :
    (ensureColsList d names).getCol x = some (List.replicate d.nrows (Value.num 0)) := by
  induction names generalizing d with
  | nil => simp at hn
  | cons n rest ih =>
    have e : ensureColsList d (n :: rest) = ensureColsList (ensureCol d n) rest := rfl
    rw [e]
    by_cases hxn : x = n
    · subst hxn
      rw [getCol_ensureColsList_of_mem _ rest x (mem_columns_ensureCol_self d x)]
      exact getCol_ensureCol_self_of_not_mem d x hd
    · have h1 : x ∈ rest := by
        rcases List.mem_cons.mp hn with h2 | h2
        · exact absurd h2 hxn
        · exact h2
      rw [ih (ensureCol d n) h1 (not_mem_columns_ensureCol d n x hd hxn), nrows_ensureCol]

theorem selectE_ok (d : DataFrame) (names : List String)
    (h : ∀ n ∈ names, n ∈ d.columns) :
    selectE d names = .ok ⟨d.nrows, names.map (fun n => (n, (d.getCol n).getD []))⟩ := by
  unfold selectE
  rw [if_pos h]

theorem columns_of_mapped (m : Nat) (names : List String) (f : String → String × List Value)
    (hf : ∀ n, (f n).1 = n) :
    (⟨m, names.map f⟩ : DataFrame).columns = names := by
  show (names.map f).map Prod.fst = names
  rw [List.map_map, show Prod.fst ∘ f = id from funext hf, List.map_id]

theorem getCol_of_mapped (m : Nat) (names : List String) (f : String → List Value)
    (c : String) (h : c ∈ names) :
    (⟨m, names.map (fun n => (n, f n))⟩ : DataFrame).getCol c = some (f c) := by
  induction names with
  | nil => simp at h
  | cons n rest ih =>
    by_cases hc : n = c
    · subst hc
      simp [DataFrame.getCol]
    · rcases List.mem_cons.mp h with h1 | h1
      · exact absurd h1.symm hc
      · simpa [DataFrame.getCol, hc] using ih h1

theorem setPairs_setPairs (cols : List (String × List Value)) (c : String)
    (v w : List Value) : setPairs (setPairs cols c v) c w = setPairs cols c w := by
  induction cols with
  | nil => simp [setPairs]
  | cons p rest ih =>
    by_cases h : p.1 = c
    · simp [setPairs, h]
    · simp [setPairs, h, ih]

theorem setCol_setCol (d : DataFrame) (c : String) (v w : List Value) :
    (d.setCol c v).setCol c w = d.setCol c w := by
  simp [DataFrame.setCol, setPairs_setPairs]

theorem addPctChg_of_mem (d : DataFrame) (h : "pct_chg" ∈ d.columns) :
    addPctChg d = .ok d := by
  simp [addPctChg, h]

theorem addPctChg_of_not_mem (d : DataFrame) (closeVals : List Value)
    (h : "pct_chg" ∉ d.columns) (hc : d.getCol "close" = some closeVals) :
    addPctChg d =
      .ok (d.setCol "pct_chg" (fillna (seriesMul (pct_change closeVals) 100) 0)) := by
  simp only [addPctChg, h, if_false, hc, getCol_setCol_self, Option.getD_some, ite_false]
  rw [setCol_setCol]

theorem addPctChg_of_no_close (d : DataFrame)
    (h : "pct_chg" ∉ d.columns) (hc : d.getCol "close" = none) :
    addPctChg d = .error (PyExc.keyError "close") := by
  simp [addPctChg, h, hc]

theorem zipWith_pctStep_map (xs ys : List ℚ) :
    List.zipWith pctStep (xs.map Value.num) (ys.map Value.num)
      = List.zipWith (fun a b => Value.num (b / a - 1)) xs ys := by
  induction xs generalizing ys with
  | nil => simp
  | cons x xs ih =>
    cases ys with
    | nil => simp
    | cons y ys => simp [pctStep, ih]

theorem pct_pipeline_eq (closes : List ℚ) (hne : closes ≠ []) :
    fillna (seriesMul (pct_change (closes.map Value.num)) 100) 0
      = Value.num 0
        :: List.zipWith (fun a b => Value.num ((b / a - 1) * 100)) closes closes.tail := by
  cases closes with
  | nil => exact absurd rfl hne
  | cons c cs =>
    have e1 : pct_change ((c :: cs).map Value.num)
        = Value.nan :: List.zipWith pctStep ((c :: cs).map Value.num) (cs.map Value.num) := rfl
    rw [e1, zipWith_pctStep_map]
    simp only [seriesMul, fillna, List.map_cons, List.map_zipWith, List.tail_cons]

theorem find_some_of_mem_fst (cols : List (String × List Value)) (x : String)
    (h : x ∈ cols.map Prod.fst) :
    ∃ v, (cols.find? (fun p => p.1 == x)).map Prod.snd = some v := by
  induction cols with
  | nil => simp at h
  | cons p rest ih =>
    by_cases hp : p.1 = x
    · exact ⟨p.2, by simp [List.find?, hp]⟩
    · have h1 : x ∈ rest.map Prod.fst := by
        simp only [List.map_cons, List.mem_cons] at h
        rcases h with h2 | h2
        · exact absurd h2.symm hp
        · exact h2
      have hb : (p.1 == x) = false := by simp [hp]
      simpa [List.find?, hb] using ih h1

theorem getCol_isSome_of_mem (d : DataFrame) (x : String) (h : x ∈ d.columns) :
    ∃ v, d.getCol x = some v :=
  find_some_of_mem_fst d.cols x h

/-- Core of the non-empty normalizer path, shared by the schema proofs:
whenever `addPctChg` succeeds, the output selection has exactly the standard
schema and fills the still-missing standard columns with zeros. -/
theorem normalize_nonempty_core (df d1 : DataFrame) (stock_code : String)
    (he : df.empty = false)
    (ha : addPctChg df = .ok d1)
    (hn : d1.nrows = df.nrows)
    (hcols : ∀ x, x ≠ "pct_chg" → (x ∈ d1.columns ↔ x ∈ df.columns)) :
    ∃ out, _normalize_data df stock_code = .ok out
      ∧ out.columns = STANDARD_COLUMNS
      ∧ (∀ c ∈ STANDARD_COLUMNS, c ∉ df.columns → c ≠ "pct_chg" →
          out.getCol c = some (List.replicate df.nrows (Value.num 0))) := by
  have hall : ∀ n ∈ STANDARD_COLUMNS, n ∈ (ensureCols d1).columns :=
    fun n hn' => mem_columns_ensureColsList_of_mem_names d1 STANDARD_COLUMNS n hn'
  have hsel := selectE_ok (ensureCols d1) STANDARD_COLUMNS hall
  refine ⟨⟨(ensureCols d1).nrows,
      STANDARD_COLUMNS.map (fun n => (n, ((ensureCols d1).getCol n).getD []))⟩, ?_, ?_, ?_⟩
  · unfold _normalize_data
    rw [if_neg (by simp [he]), ha]
    exact hsel
  · exact columns_of_mapped _ STANDARD_COLUMNS _ (fun n => rfl)
  · intro c hcS hcd hcp
    have hcd1 : c ∉ d1.columns := fun hh => hcd ((hcols c hcp).mp hh)
    have hfill : (ensureCols d1).getCol c = some (List.replicate d1.nrows (Value.num 0)) :=
      getCol_ensureColsList_filled d1 STANDARD_COLUMNS c hcS hcd1
    rw [getCol_of_mapped _ STANDARD_COLUMNS _ c hcS, hfill]
    simp [hn]

/-- C2 (amended): for every input table that is empty or has a `pct_chg` or
`close` column, `_normalize_data` returns a table whose columns are exactly
`STANDARD_COLUMNS` in the fixed order (extra columns dropped); an empty
input yields the zero-row frame with that schema; and every standard column
other than `pct_chg` absent from a non-empty input is populated with `0.0`
for every row.  (As stated the claim fails: `pct_chg`, when absent, is
populated with the computed percent-change series, not `0.0` — see C4 — and
a non-empty input lacking both `pct_chg` and `close` raises `KeyError`
instead of returning a table.) -/
theorem C2_standard_schema (df : DataFrame) (stock_code : String)
    (h : df.empty = true ∨ "pct_chg" ∈ df.columns ∨ "close" ∈ df.columns) :
    ∃ out, _normalize_data df stock_code = .ok out
      ∧ out.columns = STANDARD_COLUMNS
      ∧ (df.empty = true → out = ⟨0, STANDARD_COLUMNS.map (fun c => (c, []))⟩)
      ∧ (df.empty = false → ∀ c ∈ STANDARD_COLUMNS, c ∉ df.columns → c ≠ "pct_chg" →
          out.getCol c = some (List.replicate df.nrows (Value.num 0))) := by
  by_cases he : df.empty = true
  · refine ⟨⟨0, STANDARD_COLUMNS.map (fun c => (c, []))⟩, ?_, ?_, fun _ => rfl, ?_⟩
    · unfold _normalize_data
      rw [if_pos he]
    · exact columns_of_mapped _ STANDARD_COLUMNS _ (fun n => rfl)
    · intro hf
      rw [he] at hf
      cases hf
  · have he' : df.empty = false := by
      cases hb : df.empty
      · rfl
      · exact absurd hb he
    rcases h with h | h | h
    · exact absurd h he
    · obtain ⟨out, h1, h2, h3⟩ :=
        normalize_nonempty_core df df stock_code he' (addPctChg_of_mem df h) rfl
          (fun x _ => Iff.rfl)
      exact ⟨out, h1, h2, fun hf => absurd hf (by simp [he']), fun _ => h3⟩
    · by_cases hp : "pct_chg" ∈ df.columns
      · obtain ⟨out, h1, h2, h3⟩ :=
          normalize_nonempty_core df df stock_code he' (addPctChg_of_mem df hp) rfl
            (fun x _ => Iff.rfl)
        exact ⟨out, h1, h2, fun hf => absurd hf (by simp [he']), fun _ => h3⟩
      · obtain ⟨v, hv⟩ := getCol_isSome_of_mem df "close" h
        have ha := addPctChg_of_not_mem df v hp hv
        have hcc : (df.setCol "pct_chg"
            (fillna (seriesMul (pct_change v) 100) 0)).columns = df.columns ++ ["pct_chg"] :=
          columns_setCol_of_not_mem df "pct_chg" _ hp
        obtain ⟨out, h1, h2, h3⟩ :=
          normalize_nonempty_core df _ stock_code he' ha (nrows_setCol df _ _)
            (by
              intro x hx
              constructor
              · intro hh
                rw [hcc] at hh
                rcases List.mem_append.mp hh with h4 | h4
                · exact h4
                · simp at h4
                  exact absurd h4 hx
              · intro hh
                rw [hcc]
                exact List.mem_append.mpr (Or.inl hh))
        exact ⟨out, h1, h2, fun hf => absurd hf (by simp [he']), fun _ => h3⟩

/-- Witness for C2 at a two-row close-only frame. -/
theorem C2_witness :
    ∃ out, _normalize_data ⟨2, [("close", [Value.num 1, Value.num 2])]⟩ "600519" = .ok out
      ∧ out.columns = STANDARD_COLUMNS
      ∧ ((⟨2, [("close", [Value.num 1, Value.num 2])]⟩ : DataFrame).empty = true →
          out = ⟨0, STANDARD_COLUMNS.map (fun c => (c, []))⟩)
      ∧ ((⟨2, [("close", [Value.num 1, Value.num 2])]⟩ : DataFrame).empty = false →
          ∀ c ∈ STANDARD_COLUMNS,
            c ∉ (⟨2, [("close", [Value.num 1, Value.num 2])]⟩ : DataFrame).columns →
            c ≠ "pct_chg" →
            out.getCol c = some (List.replicate 2 (Value.num 0))) :=
  C2_standard_schema ⟨2, [("close", [Value.num 1, Value.num 2])]⟩ "600519"
    (Or.inr (Or.inr (by decide)))

/-- Counterexample to C2 as stated: on a non-empty input whose only column is
`close` = [1, 2], the absent standard column `pct_chg` is populated with the
computed series `[0, (2/1 - 1)*100]`, whose second cell is not `0.0`; and on
a non-empty input lacking both `pct_chg` and `close`, `_normalize_data`
raises `KeyError` rather than returning a table of any shape. -/
theorem C2_counterexample :
    _normalize_data ⟨2, [("close", [Value.num 1, Value.num 2])]⟩ "600519"
      = .ok ⟨2, [("date", [Value.num 0, Value.num 0]), ("open", [Value.num 0, Value.num 0]),
                 ("high", [Value.num 0, Value.num 0]), ("low", [Value.num 0, Value.num 0]),
                 ("close", [Value.num 1, Value.num 2]), ("volume", [Value.num 0, Value.num 0]),
                 ("amount", [Value.num 0, Value.num 0]),
                 ("pct_chg", [Value.num 0, Value.num ((2 / 1 - 1) * 100)])]⟩
    ∧ Value.num ((2 / 1 - 1) * 100) ≠ Value.num 0
    ∧ _normalize_data ⟨1, [("date", [Value.str "2024-01-01"])]⟩ "600519"
        = .error (PyExc.keyError "close") :=
  ⟨rfl, by simp only [ne_eq, Value.num.injEq]; norm_num, rfl⟩

/-- C4: for every non-empty input with a `close` column (numeric cells) and
no `pct_chg` column, the normalizer's output has
`pct_chg[0] = 0` and `pct_chg[t] = (close[t]/close[t-1] - 1) * 100`
for `t ≥ 1`, in row order. -/
theorem C4_pct_formula (df : DataFrame) (stock_code : String) (closes : List ℚ)
    (he : df.empty = false) (hp : "pct_chg" ∉ df.columns)
    (hc : df.getCol "close" = some (closes.map Value.num)) (hne : closes ≠ []) :
    ∃ out, _normalize_data df stock_code = .ok out
      ∧ out.getCol "pct_chg" = some (Value.num 0
          :: List.zipWith (fun a b => Value.num ((b / a - 1) * 100)) closes closes.tail) := by
  have ha := addPctChg_of_not_mem df (closes.map Value.num) hp hc
  have hmem : "pct_chg" ∈ (df.setCol "pct_chg"
      (fillna (seriesMul (pct_change (closes.map Value.num)) 100) 0)).columns := by
    rw [columns_setCol_of_not_mem df _ _ hp]
    simp
  have hall : ∀ n ∈ STANDARD_COLUMNS, n ∈ (ensureCols (df.setCol "pct_chg"
      (fillna (seriesMul (pct_change (closes.map Value.num)) 100) 0))).columns :=
    fun n hn' => mem_columns_ensureColsList_of_mem_names _ STANDARD_COLUMNS n hn'
  have hsel := selectE_ok _ STANDARD_COLUMNS hall
  refine ⟨⟨(ensureCols (df.setCol "pct_chg"
      (fillna (seriesMul (pct_change (closes.map Value.num)) 100) 0))).nrows,
      STANDARD_COLUMNS.map (fun n => (n, ((ensureCols (df.setCol "pct_chg"
        (fillna (seriesMul (pct_change (closes.map Value.num)) 100) 0))).getCol n).getD []))⟩,
      ?_, ?_⟩
  · unfold _normalize_data
    rw [if_neg (by simp [he]), ha]
    exact hsel
  · have hpe : (ensureCols (df.setCol "pct_chg"
        (fillna (seriesMul (pct_change (closes.map Value.num)) 100) 0))).getCol "pct_chg"
        = some (fillna (seriesMul (pct_change (closes.map Value.num)) 100) 0) :=
      (getCol_ensureColsList_of_mem _ STANDARD_COLUMNS _ hmem).trans
        (getCol_setCol_self df _ _)
    rw [getCol_of_mapped _ STANDARD_COLUMNS _ "pct_chg" (by simp [STANDARD_COLUMNS]), hpe]
    rw [Option.getD_some, pct_pipeline_eq closes hne]

/-- Witness for C4 at closes `[1, 2]`. -/
theorem C4_witness :
    ∃ out, _normalize_data ⟨2, [("close", [Value.num 1, Value.num 2])]⟩ "X" = .ok out
      ∧ out.getCol "pct_chg" = some (Value.num 0
          :: List.zipWith (fun a b => Value.num ((b / a - 1) * 100)) [1, 2] [1, 2].tail) :=
  C4_pct_formula ⟨2, [("close", [Value.num 1, Value.num 2])]⟩ "X" [1, 2]
    rfl (by decide) rfl (by decide)

/-- C9 (amended): `_normalize_data` mutates its input rather than copying
it — for every non-empty input that either lacks `pct_chg` but has `close`,
or has `pct_chg` and lacks some standard column, the caller's table object
is changed by the call (columns were added in place).  (As stated the claim
fails: a non-empty input lacking both `pct_chg` and `close` raises the
`KeyError` from reading `df['close']` before the first assignment, leaving
the input unchanged.) -/
theorem C9_in_place_mutation (df : DataFrame)
    (he : df.empty = false)
    (h : ("pct_chg" ∉ df.columns ∧ "close" ∈ df.columns)
       ∨ ("pct_chg" ∈ df.columns ∧ ∃ c, c ∈ STANDARD_COLUMNS ∧ c ∉ df.columns)) :
    _normalize_data_after df ≠ df := by
  rcases h with ⟨hp, hcl⟩ | ⟨hp, c, hcS, hcn⟩
  · obtain ⟨v, hv⟩ := getCol_isSome_of_mem df "close" hcl
    have ha := addPctChg_of_not_mem df v hp hv
    have hafter : _normalize_data_after df
        = ensureCols (df.setCol "pct_chg" (fillna (seriesMul (pct_change v) 100) 0)) := by
      unfold _normalize_data_after
      rw [if_neg (by simp [he]), ha]
    intro heq
    rw [hafter] at heq
    have hmem : "pct_chg" ∈ (ensureCols (df.setCol "pct_chg"
        (fillna (seriesMul (pct_change v) 100) 0))).columns :=
      mem_columns_ensureColsList_of_mem _ STANDARD_COLUMNS _
        (by rw [columns_setCol_of_not_mem df _ _ hp]; simp)
    rw [heq] at hmem
    exact hp hmem
  · have ha := addPctChg_of_mem df hp
    have hafter : _normalize_data_after df = ensureCols df := by
      unfold _normalize_data_after
      rw [if_neg (by simp [he]), ha]
    intro heq
    rw [hafter] at heq
    have hmem : c ∈ (ensureCols df).columns :=
      mem_columns_ensureColsList_of_mem_names df STANDARD_COLUMNS c hcS
    rw [heq] at hmem
    exact hcn hmem

/-- Witness for C9 at a one-row close-only frame. -/
theorem C9_witness :
    _normalize_data_after ⟨1, [("close", [Value.num 5])]⟩ ≠ ⟨1, [("close", [Value.num 5])]⟩ :=
  C9_in_place_mutation ⟨1, [("close", [Value.num 5])]⟩ rfl
    (Or.inl ⟨by decide, by decide⟩)

/-- Counterexample to C9 as stated: a non-empty one-column `date` frame
lacks `pct_chg` (a standard column), yet the call leaves the caller's table
unchanged, because `df['close']` raises `KeyError` before any column
assignment runs. -/
theorem C9_counterexample :
    (⟨1, [("date", [Value.str "2024-01-01"])]⟩ : DataFrame).empty = false
    ∧ "pct_chg" ∉ (⟨1, [("date", [Value.str "2024-01-01"])]⟩ : DataFrame).columns
    ∧ _normalize_data_after ⟨1, [("date", [Value.str "2024-01-01"])]⟩
        = ⟨1, [("date", [Value.str "2024-01-01"])]⟩ :=
  ⟨rfl, by decide, rfl⟩

/-- C10: the `stock_code` parameter has no influence on `_normalize_data`:
for every table and every two stock codes the results are equal. -/
theorem C10_stock_code_no_influence (df : DataFrame) (c1 c2 : String) :
    _normalize_data df c1 = _normalize_data df c2 := rfl
